import Mathlib

/-!
Shallow embedding of the rule reconciliation engine in `src/apply_rules.rs`
of the transit_model repository, together with theorems settling the
specification claims about it.

The data model mirrors the Rust code: `BTreeSet` values become `Finset`
(with iteration order given by `Finset.sort` under the lexicographic order
derived on the record types, matching the derived `Ord` instances),
collections indexed by id become lists with first-match lookup and update
(ids are unique in `CollectionWithId`, where first-match and unique-match
coincide), and the mutable `Report` is threaded explicitly.
-/

namespace TransitModel

/-- The closed enumeration of object types (`enum ObjectType`). -/
inductive ObjectType
  | line
  | route
  | stop_point
  | stop_area
deriving DecidableEq, Repr

/-- `ObjectType::as_str`. -/
def ObjectType.as_str : ObjectType → String
  | .line => "line"
  | .route => "route"
  | .stop_point => "stop_point"
  | .stop_area => "stop_area"

/-- Rank of a variant in declaration order, used to reproduce the derived
`Ord` instance of the Rust enum. -/
def ObjectType.rank : ObjectType → Nat
  | .line => 0
  | .route => 1
  | .stop_point => 2
  | .stop_area => 3

theorem ObjectType.rank_injective : Function.Injective ObjectType.rank := by
  intro a b h
  cases a <;> cases b <;> first | rfl | exact absurd h (by decide)

instance : LinearOrder ObjectType := LinearOrder.lift' ObjectType.rank ObjectType.rank_injective

/-- `struct ComplementaryCode` (one row of a complementary-code rule file). -/
structure ComplementaryCode where
  object_type : ObjectType
  object_id : String
  object_system : String
  object_code : String
deriving DecidableEq, Repr

/-- Field-lexicographic encoding reproducing the derived `Ord` of
`ComplementaryCode` (fields compared in declaration order). -/
def ComplementaryCode.encode (c : ComplementaryCode) :
    ObjectType ×ₗ String ×ₗ String ×ₗ String :=
  toLex (c.object_type, toLex (c.object_id, toLex (c.object_system, c.object_code)))

theorem ComplementaryCode.encode_injective_cc : Function.Injective ComplementaryCode.encode := by
  intro a b h
  cases a
  cases b
  simp only [encode, toLex_inj, Prod.mk.injEq] at h
  simp [h.1, h.2.1, h.2.2.1, h.2.2.2]

instance : LinearOrder ComplementaryCode :=
  LinearOrder.lift' ComplementaryCode.encode ComplementaryCode.encode_injective_cc

/-- `struct PropertyRule` (one row of a property rule file). -/
structure PropertyRule where
  object_type : ObjectType
  object_id : String
  property_name : String
  property_old_value : Option String
  property_value : String
deriving DecidableEq, Repr

/-- `Option` ordered with `none` first, as in the derived `Ord` for
`Option<String>` in Rust. -/
def optionToBot (o : Option String) : WithBot String :=
  match o with
  | none => ⊥
  | some s => (s : WithBot String)

theorem optionToBot_injective : Function.Injective optionToBot := by
  intro a b h
  cases a <;> cases b <;> simp_all [optionToBot]

/-- Field-lexicographic encoding reproducing the derived `Ord` of
`PropertyRule`. -/
def PropertyRule.encode (p : PropertyRule) :
    ObjectType ×ₗ String ×ₗ String ×ₗ WithBot String ×ₗ String :=
  toLex (p.object_type, toLex (p.object_id, toLex (p.property_name,
    toLex (optionToBot p.property_old_value, p.property_value))))

theorem PropertyRule.encode_injective_pr : Function.Injective PropertyRule.encode := by
  intro a b h
  cases a
  cases b
  simp only [encode, toLex_inj, Prod.mk.injEq] at h
  obtain ⟨h1, h2, h3, h4, h5⟩ := h
  simp [h1, h2, h3, optionToBot_injective h4, h5]

instance : LinearOrder PropertyRule :=
  LinearOrder.lift' PropertyRule.encode PropertyRule.encode_injective_pr

/-- Grouping key of the `BTreeMap` in `read_property_rules_files`:
`(object_type, object_id, property_name)`. -/
structure RuleKey where
  object_type : ObjectType
  object_id : String
  property_name : String
deriving DecidableEq, Repr

/-- Field-lexicographic encoding reproducing the `Ord` on the grouping key
tuple. -/
def RuleKey.encode (k : RuleKey) : ObjectType ×ₗ String ×ₗ String :=
  toLex (k.object_type, toLex (k.object_id, k.property_name))

theorem RuleKey.encode_injective_key : Function.Injective RuleKey.encode := by
  intro a b h
  cases a
  cases b
  simp only [encode, toLex_inj, Prod.mk.injEq] at h
  simp [h.1, h.2.1, h.2.2]

instance : LinearOrder RuleKey := LinearOrder.lift' RuleKey.encode RuleKey.encode_injective_key

/-- `PropertyRule` grouping key projection. -/
def PropertyRule.key (p : PropertyRule) : RuleKey :=
  ⟨p.object_type, p.object_id, p.property_name⟩

/-- `ReportType`: the closed enumeration of warning categories. -/
inductive ReportType
  | invalidFile
  | unknownPropertyName
  | multipleValue
  | objectNotFound
  | oldPropertyValueDoesNotMatch
  | geometryNotValid
deriving DecidableEq, Repr

/-- The diagnostics accumulator `Report`: an ordered sequence of
`(message, category)` pairs. -/
structure Report where
  warnings : List (String × ReportType)
deriving DecidableEq, Repr

/-- A fresh report (`Report::default`). -/
def Report.empty : Report := ⟨[]⟩

/-- `Report::add_warning`: append one typed warning. -/
def Report.add_warning (r : Report) (msg : String) (t : ReportType) : Report :=
  ⟨r.warnings ++ [(msg, t)]⟩

/-- Number of warnings of a given category in a report. -/
def Report.countType (r : Report) (t : ReportType) : Nat :=
  r.warnings.countP (fun w => w.2 = t)

/-- Modelled from the spec: an exact finite-decimal coordinate in canonical
form, the value being `num / 10 ^ exp` with the fractional trailing zeros
stripped (so two coordinate texts denote the same number exactly when their
canonical forms are equal).  This models the numeric value the external
WKT reader produces for a coordinate literal. -/
structure Decimal where
  num : Int
  exp : Nat
deriving DecidableEq, Repr

/-- Modelled from the spec: geometric shape data ("point/line" shapes,
§ Glossary and §4.5).  The Rust code stores `geo_types::Geometry<f64>`
obtained from parsed WKT; equality is structural equality of the parsed
coordinates, which is the content equality used by `==` on the parsed
geometries. -/
inductive Geo
  | point (x y : Decimal)
  | linestring (coords : List (Decimal × Decimal))
deriving DecidableEq, Repr

/-- `struct Geometry` of the object model: an addressable shape record. -/
structure Geometry where
  id : String
  geometry : Geo
deriving DecidableEq, Repr

/-- Modelled from the spec: the parse tree produced by the external WKT
reader (`wkt::Wkt::from_str`) for the shapes in scope.  An empty point is
representable at this level but not convertible to a geometry. -/
inductive WktItem
  | pointItem (c : Option (Decimal × Decimal))
  | linestringItem (coords : List (Decimal × Decimal))
deriving DecidableEq, Repr

/-- Drop leading spaces. -/
def skipSpaces (s : List Char) : List Char :=
  s.dropWhile (fun c => c = ' ')

/-- Digits of a decimal literal as a natural number. -/
def natOfDigits (l : List Char) : Nat :=
  l.foldl (fun n c => 10 * n + (c.toNat - 48)) 0

/-- Canonical decimal from sign, integer digits and fraction digits:
fractional trailing zeros are stripped and zero is unsigned, so equal
numeric values get equal representations. -/
def mkDecimal (neg : Bool) (intDigits fracDigits : List Char) : Decimal :=
  let frac := (fracDigits.reverse.dropWhile (fun c => c = '0')).reverse
  let n := natOfDigits (intDigits ++ frac)
  if n = 0 then ⟨0, 0⟩
  else ⟨if neg then -(n : Int) else (n : Int), frac.length⟩

/-- Modelled from the spec: parse one signed decimal coordinate literal
into its exact canonical value, returning the remaining input. -/
def parseNumber (s : List Char) : Option (Decimal × List Char) :=
  let neg : Bool := match s with
    | '-' :: _ => true
    | _ => false
  let s1 : List Char := match s with
    | '-' :: r => r
    | r => r
  let intDigits := s1.takeWhile Char.isDigit
  let s2 := s1.dropWhile Char.isDigit
  if intDigits.isEmpty then none
  else
    match s2 with
    | '.' :: s3 =>
      let fracDigits := s3.takeWhile Char.isDigit
      let s4 := s3.dropWhile Char.isDigit
      if fracDigits.isEmpty then none
      else some (mkDecimal neg intDigits fracDigits, s4)
    | _ => some (mkDecimal neg intDigits [], s2)

/-- Parse one `x y` coordinate pair. -/
def parseCoord (s : List Char) : Option ((Decimal × Decimal) × List Char) :=
  match parseNumber (skipSpaces s) with
  | none => none
  | some (x, r1) =>
    match parseNumber (skipSpaces r1) with
    | none => none
    | some (y, r2) => some ((x, y), r2)

/-- Parse a comma-separated list of coordinate pairs (fuelled recursion;
the fuel is an upper bound on the number of pairs). -/
def parseCoordList (fuel : Nat) (s : List Char) :
    Option (List (Decimal × Decimal) × List Char) :=
  match fuel with
  | 0 => none
  | fuel + 1 =>
    match parseCoord s with
    | none => none
    | some (c, r) =>
      match skipSpaces r with
      | ',' :: r2 =>
        match parseCoordList fuel r2 with
        | none => none
        | some (cs, r3) => some (c :: cs, r3)
      | r2 => some ([c], r2)

/-- Modelled from the spec: `wkt::Wkt::from_str` for the shapes in scope
(POINT and LINESTRING, upper-case tags, including the EMPTY forms). -/
def wktFromStr (w : String) : Option WktItem :=
  match skipSpaces w.toList with
  | 'P' :: 'O' :: 'I' :: 'N' :: 'T' :: rest =>
    (match skipSpaces rest with
    | 'E' :: 'M' :: 'P' :: 'T' :: 'Y' :: r2 =>
      if (skipSpaces r2).isEmpty then some (.pointItem none) else none
    | '(' :: r2 =>
      (match parseCoord r2 with
      | none => none
      | some (c, r3) =>
        match skipSpaces r3 with
        | ')' :: r4 =>
          if (skipSpaces r4).isEmpty then some (.pointItem (some c)) else none
        | _ => none)
    | _ => none)
  | 'L' :: 'I' :: 'N' :: 'E' :: 'S' :: 'T' :: 'R' :: 'I' :: 'N' :: 'G' :: rest =>
    (match skipSpaces rest with
    | 'E' :: 'M' :: 'P' :: 'T' :: 'Y' :: r2 =>
      if (skipSpaces r2).isEmpty then some (.linestringItem []) else none
    | '(' :: r2 =>
      (match parseCoordList (r2.length + 1) r2 with
      | none => none
      | some (cs, r3) =>
        match skipSpaces r3 with
        | ')' :: r4 =>
          if (skipSpaces r4).isEmpty then some (.linestringItem cs) else none
        | _ => none)
    | _ => none)
  | _ => none

/-- Modelled from the spec: `wkt::conversion::try_into_geometry`.  An empty
point has no geometry counterpart ("impossible to convert empty point"). -/
def try_into_geometry : WktItem → Option Geo
  | .pointItem none => none
  | .pointItem (some (x, y)) => some (.point x y)
  | .linestringItem cs => some (.linestring cs)

/-- Parsing a WKT text all the way to a geometry value (no report
threading); `wkt_to_geo` below is the reported version from the source. -/
def wktToGeoPure (w : String) : Option Geo :=
  (wktFromStr w).bind try_into_geometry

/-- Message of the `GeometryNotValid` warning in `wkt_to_geo`. -/
def geometryNotValidMsg (p : PropertyRule) : String :=
  "object_type=" ++ p.object_type.as_str ++ ", object_id=" ++ p.object_id ++ ": invalid geometry"

/-- `wkt_to_geo`: parse WKT; a text that is not WKT records a
`GeometryNotValid` warning; a parsed but unconvertible item (empty point)
is only logged, not reported. -/
def wkt_to_geo (w : String) (report : Report) (p : PropertyRule) : Option Geo × Report :=
  match wktFromStr w with
  | some item =>
    (match try_into_geometry item with
    | some geo => (some geo, report)
    | none => (none, report))
  | none => (none, report.add_warning (geometryNotValidMsg p) .geometryNotValid)

/-- Replace the first element satisfying the predicate (the semantics of
`CollectionWithId::index_mut` / `get_mut` on a collection with unique ids). -/
def updateFirst {T : Type} (pred : T → Bool) (f : T → T) : List T → List T
  | [] => []
  | x :: rest => if pred x then f x :: rest else x :: updateFirst pred f rest

/-- Upsert of a shape record by id: overwrite in place when present,
append when absent (the `get_mut ... map ... unwrap_or_else push` of
`get_geometry_id`). -/
def upsertGeometry (collection : List Geometry) (id : String) (geo : Geo) : List Geometry :=
  if (collection.find? (fun g => g.id = id)).isSome then
    updateFirst (fun g => g.id = id) (fun g => { g with geometry := geo }) collection
  else
    collection ++ [⟨id, geo⟩]

/-- The synthesized shape id `object_type:object_id`. -/
def synthGeoId (p : PropertyRule) : String :=
  p.object_type.as_str ++ ":" ++ p.object_id

/-- `get_geometry_id`: parse the new shape value; on success upsert the
shape collection at the synthesized id `object_type:object_id` and return
that id. -/
def get_geometry_id (w : String) (collection : List Geometry) (p : PropertyRule)
    (report : Report) : Option String × List Geometry × Report :=
  match wkt_to_geo w report p with
  | (some geo, r) => (some (synthGeoId p), upsertGeometry collection (synthGeoId p) geo, r)
  | (none, r) => (none, collection, r)

/-- Message of the `OldPropertyValueDoesNotMatch` warning in `update_prop`. -/
def oldValueMismatchMsg (p : PropertyRule) : String :=
  "object_type=" ++ p.object_type.as_str ++ ", object_id=" ++ p.object_id ++
    ", property_name=" ++ p.property_name ++
    ": property_old_value does not match the value found in the data"

/-- `update_prop`: the generic conditional field update, parameterized by
the conversions to and from optional text (`Into<Option<String>>` and
`From<String>` in the source). -/
def update_prop {T : Type} (intoOpt : T → Option String) (ofString : String → T)
    (p : PropertyRule) (field : T) (report : Report) : T × Report :=
  if p.property_old_value = some "*" ∨ p.property_old_value = intoOpt field then
    (ofString p.property_value, report)
  else
    (field, report.add_warning (oldValueMismatchMsg p) .oldPropertyValueDoesNotMatch)

/-- Message of the `ObjectNotFound` warning for a dangling shape reference
in `update_geometry`. -/
def geometryNotFoundMsg (p : PropertyRule) (geoId : String) : String :=
  "object_type=" ++ p.object_type.as_str ++ ", object_id=" ++ p.object_id ++
    ": geometry " ++ geoId ++ " not found"

/-- The shared tail of `update_geometry` after the old-value case analysis:
upsert the new shape, rewrite the rule value to the shape id, and run the
generic conditional update on the shape-reference field. -/
def update_geometry_tail (p : PropertyRule) (geo_id : Option String) (report : Report)
    (geometries : List Geometry) : PropertyRule × Option String × Report × List Geometry :=
  match get_geometry_id p.property_value geometries p report with
  | (some id, geoms, r) =>
    let p2 := { p with property_value := id }
    let (field, r2) := update_prop (fun o => o) (fun s => some s) p2 geo_id r
    (p2, field, r2, geoms)
  | (none, geoms, r) => (p, geo_id, r, geoms)

/-- `update_geometry`: the geometry reconciler.  Returns the (possibly
rewritten) rule, the new shape-reference field of the route, the report and
the shape collection. -/
def update_geometry (p : PropertyRule) (geo_id : Option String) (report : Report)
    (geometries : List Geometry) : PropertyRule × Option String × Report × List Geometry :=
  match p.property_old_value, geo_id with
  | none, none => update_geometry_tail p geo_id report geometries
  | some pov, some gid =>
    if pov = "*" then (p, geo_id, report, geometries)
    else
      match wkt_to_geo pov report p with
      | (none, r) => (p, geo_id, r, geometries)
      | (some povGeo, r) =>
        match geometries.find? (fun g => g.id = gid) with
        | none => (p, geo_id, r.add_warning (geometryNotFoundMsg p gid) .objectNotFound, geometries)
        | some g =>
          let p2 := { p with
            property_old_value := if povGeo ≠ g.geometry then none else some gid }
          update_geometry_tail p2 geo_id r geometries
  | some _, none => update_geometry_tail { p with property_old_value := none } geo_id report geometries
  | none, some _ => update_geometry_tail { p with property_old_value := none } geo_id report geometries

/-- An object of one of the non-route collections, reduced to what the code
applier touches: its id and its code set (`BTreeSet<(String, String)>`). -/
structure CodedObject where
  id : String
  codes : Finset (String × String)
deriving DecidableEq

/-- Insert a `(system, code)` pair into the code set (`Codes::codes_mut`). -/
def CodedObject.addCode (o : CodedObject) (c : String × String) : CodedObject :=
  { o with codes := insert c o.codes }

/-- A `Route` object, reduced to the fields the engine touches. -/
structure Route where
  id : String
  name : String
  direction_type : Option String
  destination_id : Option String
  geometry_id : Option String
  codes : Finset (String × String)
deriving DecidableEq

/-- Insert a `(system, code)` pair into a route's code set. -/
def Route.addCode (r : Route) (c : String × String) : Route :=
  { r with codes := insert c r.codes }

/-- Message of the `ObjectNotFound` warning in `insert_code`. -/
def codeNotFoundMsg (code : ComplementaryCode) : String :=
  "Error inserting code: object_codes.txt: object=" ++ code.object_type.as_str ++
    ",  object_id=" ++ code.object_id ++ " not found"

/-- `insert_code`, generic over the target collection via its id projection
and code-insertion operation. -/
def insert_code {T : Type} (getId : T → String) (addCode : T → String × String → T)
    (collection : List T) (code : ComplementaryCode) (report : Report) :
    List T × Report :=
  if (collection.find? (fun o => getId o = code.object_id)).isSome then
    (updateFirst (fun o => getId o = code.object_id)
      (fun o => addCode o (code.object_system, code.object_code)) collection, report)
  else
    (collection, report.add_warning (codeNotFoundMsg code) .objectNotFound)

/-- The object graph (`Collections`), reduced to the collections the engine
touches. -/
structure Collections where
  lines : List CodedObject
  routes : List Route
  stop_points : List CodedObject
  stop_areas : List CodedObject
  geometries : List Geometry
deriving DecidableEq

/-- Dispatch of one `ComplementaryCode` to its target collection (the
`match code.object_type` in `apply_rules`). -/
def applyCode (c : Collections) (code : ComplementaryCode) (report : Report) :
    Collections × Report :=
  match code.object_type with
  | .line =>
    let (l, r) := insert_code CodedObject.id CodedObject.addCode c.lines code report
    ({ c with lines := l }, r)
  | .route =>
    let (l, r) := insert_code Route.id Route.addCode c.routes code report
    ({ c with routes := l }, r)
  | .stop_point =>
    let (l, r) := insert_code CodedObject.id CodedObject.addCode c.stop_points code report
    ({ c with stop_points := l }, r)
  | .stop_area =>
    let (l, r) := insert_code CodedObject.id CodedObject.addCode c.stop_areas code report
    ({ c with stop_areas := l }, r)

/-- Message of the `ObjectNotFound` warning for a missing route in the
property-application loop. -/
def routeNotFoundMsg (p : PropertyRule) : String :=
  p.object_type.as_str ++ " " ++ p.object_id ++ " not found in the data"

/-- Replace the first route with the given id. -/
def setRoute (routes : List Route) (id : String) (r : Route) : List Route :=
  updateFirst (fun x => x.id = id) (fun _ => r) routes

/-- Application of one surviving `PropertyRule` (the body of the property
loop in `apply_rules`). -/
def apply_property_rule (c : Collections) (report : Report) (p : PropertyRule) :
    Collections × Report :=
  match p.object_type with
  | .route =>
    (match c.routes.find? (fun r => r.id = p.object_id) with
    | some route =>
      if p.property_name = "route_name" then
        let (v, r2) := update_prop (fun s => some s) (fun s => s) p route.name report
        ({ c with routes := setRoute c.routes p.object_id { route with name := v } }, r2)
      else if p.property_name = "direction_type" then
        let (v, r2) := update_prop (fun o => o) (fun s => some s) p route.direction_type report
        ({ c with routes := setRoute c.routes p.object_id { route with direction_type := v } }, r2)
      else if p.property_name = "destination_id" then
        let (v, r2) := update_prop (fun o => o) (fun s => some s) p route.destination_id report
        ({ c with routes := setRoute c.routes p.object_id { route with destination_id := v } }, r2)
      else if p.property_name = "route_geometry" then
        let (_, gid, r2, geoms) := update_geometry p route.geometry_id report c.geometries
        ({ c with
            routes := setRoute c.routes p.object_id { route with geometry_id := gid },
            geometries := geoms }, r2)
      else (c, report)
    | none => (c, report.add_warning (routeNotFoundMsg p) .objectNotFound))
  | _ => (c, report)

/-- A rule source file: `none` when opening it fails (fatal), otherwise the
sequence of its rows, where a row is `none` when it fails to deserialize
(recoverable, `InvalidFile` warning). -/
abbrev RuleFile (α : Type) := Option (List (Option α))

/-- Read the given files row by row: a malformed row records an
`InvalidFile` warning and is dropped; a file that cannot be opened aborts
the whole read (`none` in the first component). -/
def readRows {α : Type} : List (RuleFile α) → Report → Option (List α) × Report
  | [], report => (some [], report)
  | none :: _, report => (none, report)
  | some rows :: rest, report =>
    let report2 := rows.foldl
      (fun r row =>
        if row.isNone then r.add_warning "Error reading rule file" .invalidFile else r)
      report
    match readRows rest report2 with
    | (some l, r3) => (some (rows.filterMap id ++ l), r3)
    | (none, r3) => (none, r3)

/-- `read_complementary_code_rules_files`: read all rows, deduplicate by
full-tuple equality through an ordered set, and return the sorted
sequence. -/
def read_complementary_code_rules_files (files : List (RuleFile ComplementaryCode))
    (report : Report) : Option (List ComplementaryCode) × Report :=
  match readRows files report with
  | (some rows, r) => (some (rows.toFinset.sort (· ≤ ·)), r)
  | (none, r) => (none, r)

/-- The fixed set of property names accepted for routes. -/
def allowedRouteProps : List String :=
  ["route_name", "direction_type", "route_geometry", "destination_id"]

/-- Message of the `UnknownPropertyName` warning. -/
def unknownPropMsg (k : RuleKey) : String :=
  "object_type=" ++ k.object_type.as_str ++ ", object_id=" ++ k.object_id ++
    ": unknown property_name " ++ k.property_name ++ " defined"

/-- Message of the `MultipleValue` warning. -/
def multipleValueMsg (k : RuleKey) : String :=
  "object_type=" ++ k.object_type.as_str ++ ", object_id=" ++ k.object_id ++
    ": multiple values specified for the property " ++ k.property_name

/-- The deduplicated group of rules sharing a key (the `BTreeSet` entry of
the grouping `BTreeMap`). -/
def groupOf (S : Finset PropertyRule) (k : RuleKey) : Finset PropertyRule :=
  S.filter (fun p => p.key = k)

/-- The filter closure of `read_property_rules_files`, deciding whether a
group is kept and recording the warnings it emits. -/
def filterGroup (k : RuleKey) (g : Finset PropertyRule) (report : Report) :
    Bool × Report :=
  match k.object_type with
  | .route =>
    if k.property_name ∉ allowedRouteProps then
      (false, report.add_warning (unknownPropMsg k) .unknownPropertyName)
    else if 1 < g.card then
      (false, report.add_warning (multipleValueMsg k) .multipleValue)
    else (true, report)
  | _ => (false, report)

/-- One step of the group filter fold: run the filter closure on the group
of one key, appending the group to the output when it is kept. -/
def processKey (S : Finset PropertyRule) (acc : List PropertyRule × Report) (k : RuleKey) :
    List PropertyRule × Report :=
  match filterGroup k (groupOf S k) acc.2 with
  | (true, r) => (acc.1 ++ (groupOf S k).sort (· ≤ ·), r)
  | (false, r) => (acc.1, r)

/-- The grouping, validation and ambiguity-filter stage of
`read_property_rules_files`: iterate the grouped map in key order, keeping
the groups the filter accepts. -/
def processGroups (rows : List PropertyRule) (report : Report) :
    List PropertyRule × Report :=
  ((rows.toFinset.image PropertyRule.key).sort (· ≤ ·)).foldl
    (processKey rows.toFinset) ([], report)

/-- `read_property_rules_files`: read all rows, group them by
`(object_type, object_id, property_name)` and filter the groups. -/
def read_property_rules_files (files : List (RuleFile PropertyRule))
    (report : Report) : Option (List PropertyRule) × Report :=
  match readRows files report with
  | (some rows, r) =>
    let (props, r2) := processGroups rows r
    (some props, r2)
  | (none, r) => (none, r)

/-- The code-application loop of `apply_rules`. -/
def applyCodes (c : Collections) (report : Report) (codes : List ComplementaryCode) :
    Collections × Report :=
  codes.foldl (fun acc code => applyCode acc.1 code acc.2) (c, report)

/-- The property-application loop of `apply_rules`. -/
def applyProps (c : Collections) (report : Report) (props : List PropertyRule) :
    Collections × Report :=
  props.foldl (fun acc p => apply_property_rule acc.1 acc.2 p) (c, report)

/-- `apply_rules`: read and apply the complementary codes, then read and
apply the property rules.  The first component is `some ()` when the run
aborts with a fatal error; the collections component is the state of the
borrowed object graph at return time. -/
def apply_rules (c : Collections) (codeFiles : List (RuleFile ComplementaryCode))
    (propFiles : List (RuleFile PropertyRule)) :
    Option Unit × Collections × Report :=
  match read_complementary_code_rules_files codeFiles Report.empty with
  | (none, r) => (some (), c, r)
  | (some codes, r) =>
    let (c2, r2) := applyCodes c r codes
    match read_property_rules_files propFiles r2 with
    | (none, r3) => (some (), c2, r3)
    | (some props, r3) =>
      let (c3, r4) := applyProps c2 r3 props
      (none, c3, r4)

/-- The current value of a scalar route property viewed as optional text
(the `Into<Option<String>>` view used by `update_prop` at each call site). -/
def scalarCurrent (name : String) (r : Route) : Option String :=
  if name = "route_name" then some r.name
  else if name = "direction_type" then r.direction_type
  else r.destination_id

/-- A route with one scalar property overwritten. -/
def scalarSet (name value : String) (r : Route) : Route :=
  if name = "route_name" then { r with name := value }
  else if name = "direction_type" then { r with direction_type := some value }
  else { r with destination_id := some value }

/-- A key whose group is ambiguous after dedup: routed to a route, known
property name, and more than one surviving distinct rule. -/
def ambiguousKey (S : Finset PropertyRule) (k : RuleKey) : Prop :=
  k.object_type = .route ∧ k.property_name ∈ allowedRouteProps ∧ 1 < (groupOf S k).card

instance (S : Finset PropertyRule) (k : RuleKey) : Decidable (ambiguousKey S k) := by
  unfold ambiguousKey
  infer_instance

/-- The warnings the group filter records for one key. -/
def keyWarnings (S : Finset PropertyRule) (k : RuleKey) : List (String × ReportType) :=
  match k.object_type with
  | .route =>
    if k.property_name ∉ allowedRouteProps then [(unknownPropMsg k, .unknownPropertyName)]
    else if 1 < (groupOf S k).card then [(multipleValueMsg k, .multipleValue)]
    else []
  | _ => []

/-- Whether the group filter keeps the group of a key. -/
def keptKey (S : Finset PropertyRule) (k : RuleKey) : Bool :=
  match k.object_type with
  | .route => decide (k.property_name ∈ allowedRouteProps) && decide ((groupOf S k).card ≤ 1)
  | _ => false

/-- Concrete instances used by closed counterexample and witness
theorems. -/
def exRoute1 : Route := ⟨"r1", "N", none, none, some "g1", ∅⟩

def exGeom1 : Geometry := ⟨"g1", .point ⟨0, 0⟩ ⟨0, 0⟩⟩

def exColl1 : Collections := ⟨[], [exRoute1], [], [], [exGeom1]⟩

def exRule1 : PropertyRule := ⟨.route, "r1", "route_geometry", some "POINT(5 5)", "POINT(7 7)"⟩

def exLine2 : CodedObject := ⟨"l1", ∅⟩

def exColl2 : Collections := ⟨[exLine2], [], [], [], []⟩

def exCode2 : ComplementaryCode := ⟨.line, "l1", "sys", "c1"⟩

def exCodeFile2 : RuleFile ComplementaryCode := some [some exCode2]

def exLineRule1 : PropertyRule := ⟨.line, "l1", "x", none, "v1"⟩

def exLineRule2 : PropertyRule := ⟨.line, "l1", "x", none, "v2"⟩

def exRouteRule1 : PropertyRule := ⟨.route, "r1", "route_name", some "*", "A"⟩

def exRouteRule2 : PropertyRule := ⟨.route, "r1", "route_name", some "*", "B"⟩

def exRouteRule3 : PropertyRule := ⟨.route, "r2", "direction_type", none, "forward"⟩

def exRoute7 : Route := ⟨"r7", "N", none, none, none, ∅⟩

def exColl7 : Collections := ⟨[], [exRoute7], [], [], []⟩

def exRule7 : PropertyRule := ⟨.route, "r7", "route_geometry", none, "POINT EMPTY"⟩

def exRoute6 : Route := ⟨"r6", "N", none, none, some "g6", ∅⟩

def exGeom6 : Geometry := ⟨"g6", .point ⟨1, 0⟩ ⟨2, 0⟩⟩

def exColl6 : Collections := ⟨[], [exRoute6], [], [], [exGeom6]⟩

def exRule6a : PropertyRule := ⟨.route, "r6", "route_geometry", some "POINT(1.0 2.0)", "POINT(3 4)"⟩

def exRule6b : PropertyRule := ⟨.route, "r6", "route_geometry", some "POINT(1 9)", "POINT(3 4)"⟩

def exRoute10 : Route := ⟨"r10", "N", none, none, some "gone", ∅⟩

def exColl10 : Collections := ⟨[], [exRoute10], [], [], []⟩

def exRule10 : PropertyRule := ⟨.route, "r10", "route_geometry", some "POINT(1 2)", "POINT(3 4)"⟩

def exCodeFileA : RuleFile ComplementaryCode := some [some ⟨.line, "la", "s1", "c1"⟩]

def exCodeFileB : RuleFile ComplementaryCode := some [some ⟨.route, "rb", "s2", "c2"⟩]

def exPropFileA : RuleFile PropertyRule := some [some exRouteRule1]

def exPropFileB : RuleFile PropertyRule := some [some exRouteRule3]

def exRule4 : PropertyRule := ⟨.route, "r1", "route_geometry", some "*", "POINT(7 7)"⟩

def exRoute5 : Route := ⟨"r5", "A", none, none, none, ∅⟩

def exColl5 : Collections := ⟨[], [exRoute5], [], [], []⟩

def exRule5 : PropertyRule := ⟨.route, "r5", "route_name", some "*", "B"⟩

def exRule5m : PropertyRule := ⟨.route, "r5", "route_name", some "X", "B"⟩

def exRule7a : PropertyRule := ⟨.route, "r1", "route_geometry", some "garbage", "POINT(7 7)"⟩

def exRule7b : PropertyRule := ⟨.route, "r7", "route_geometry", none, "garbage"⟩

def exRule7c : PropertyRule := ⟨.route, "r1", "route_geometry", some "POINT EMPTY", "POINT(7 7)"⟩

def exRule7d : PropertyRule := ⟨.route, "r7", "route_geometry", some "POINT(1 2)", "garbage"⟩

def exRule7e : PropertyRule := ⟨.route, "r1", "route_geometry", some "POINT(0 0)", "garbage"⟩

def exRule7f : PropertyRule := ⟨.route, "r7", "route_geometry", some "POINT(1 2)", "POINT EMPTY"⟩

def exRule7g : PropertyRule := ⟨.route, "r1", "route_geometry", some "POINT(0 0)", "POINT EMPTY"⟩

theorem updateFirst_eq_of_find? {T : Type} {pred : T → Bool} {f : T → T} {a : T} :
    ∀ {l : List T}, l.find? pred = some a → f a = a → updateFirst pred f l = l := by
  intro l
  induction l with
  | nil => intro h _; simp at h
  | cons x xs ih =>
    intro h hf
    by_cases hx : pred x
    · rw [List.find?_cons_of_pos _ hx] at h
      obtain rfl : x = a := by injection h
      simp [updateFirst, hx, hf]
    · rw [List.find?_cons_of_neg _ hx] at h
      simp [updateFirst, hx, ih h hf]

theorem setRoute_self {routes : List Route} {i : String} {r : Route}
    (h : routes.find? (fun x => x.id = i) = some r) : setRoute routes i r = routes :=
  updateFirst_eq_of_find? h rfl

theorem wkt_to_geo_pure_some {w : String} {g : Geo} (h : wktToGeoPure w = some g)
    (r : Report) (p : PropertyRule) : wkt_to_geo w r p = (some g, r) := by
  unfold wktToGeoPure at h
  cases hw : wktFromStr w with
  | none => rw [hw] at h; simp at h
  | some item =>
    rw [hw] at h
    simp only [Option.some_bind] at h
    simp only [wkt_to_geo, hw, h]

theorem wkt_to_geo_parse_fail {w : String} (r : Report) (p : PropertyRule)
    (h : wktFromStr w = none) :
    wkt_to_geo w r p = (none, r.add_warning (geometryNotValidMsg p) .geometryNotValid) := by
  unfold wkt_to_geo
  rw [h]

theorem wkt_to_geo_unconvertible {w : String} {item : WktItem} (r : Report) (p : PropertyRule)
    (h1 : wktFromStr w = some item) (h2 : try_into_geometry item = none) :
    wkt_to_geo w r p = (none, r) := by
  simp only [wkt_to_geo, h1, h2]

/-- C4: a `route_geometry` rule whose old value is the wildcard marker,
applied to a route that currently has a shape reference, is not applied:
no shape record is created or updated, the route is unchanged, and no
warning is emitted. -/
theorem claim_C4 (c : Collections) (report : Report) (p : PropertyRule) (route : Route)
    (g : String)
    (hfind : c.routes.find? (fun r => r.id = p.object_id) = some route)
    (htype : p.object_type = .route)
    (hname : p.property_name = "route_geometry")
    (hold : p.property_old_value = some "*")
    (hgid : route.geometry_id = some g) :
    apply_property_rule c report p = (c, report) := by
  have hroute : { route with geometry_id := route.geometry_id } = route := rfl
  simp only [apply_property_rule, htype, hfind, hname, String.reduceEq, reduceIte,
    update_geometry, hold, hgid]
  rw [← hgid, hroute, setRoute_self hfind]

/-- C4 witness: a concrete wildcard `route_geometry` rule on a route with a
shape reference leaves the model and the report unchanged. -/
theorem claim_C4_witness :
    apply_property_rule exColl1 Report.empty exRule4 = (exColl1, Report.empty) :=
  claim_C4 exColl1 Report.empty exRule4 exRoute1 "g1" (by decide) rfl rfl rfl rfl

/-- Case analysis of a scalar property update on an existing route: the
old-value check either passes (field overwritten, no warning) or fails
(model unchanged, one mismatch warning). -/
theorem apply_scalar_update_cases (c : Collections) (report : Report) (p : PropertyRule)
    (route : Route)
    (hfind : c.routes.find? (fun r => r.id = p.object_id) = some route)
    (htype : p.object_type = .route)
    (hname : p.property_name ∈ (["route_name", "direction_type", "destination_id"] : List String)) :
    (p.property_old_value = some "*" ∨ p.property_old_value = scalarCurrent p.property_name route →
      apply_property_rule c report p =
        ({ c with routes :=
            setRoute c.routes p.object_id (scalarSet p.property_name p.property_value route) },
          report)) ∧
    (¬(p.property_old_value = some "*" ∨ p.property_old_value = scalarCurrent p.property_name route) →
      apply_property_rule c report p =
        (c, report.add_warning (oldValueMismatchMsg p) .oldPropertyValueDoesNotMatch)) := by
  simp only [List.mem_cons, List.mem_singleton, List.not_mem_nil, or_false] at hname
  rcases hname with h | h | h <;>
    simp only [scalarCurrent, scalarSet, h, String.reduceEq, reduceIte] <;>
    constructor <;> intro hm
  · simp only [apply_property_rule, htype, hfind, h, String.reduceEq, reduceIte,
      update_prop, if_pos hm]
  · have hroute : { route with name := route.name } = route := rfl
    simp only [apply_property_rule, htype, hfind, h, String.reduceEq, reduceIte,
      update_prop, if_neg hm]
    rw [hroute, setRoute_self hfind]
  · simp only [apply_property_rule, htype, hfind, h, String.reduceEq, reduceIte,
      update_prop, if_pos hm]
  · have hroute : { route with direction_type := route.direction_type } = route := rfl
    simp only [apply_property_rule, htype, hfind, h, String.reduceEq, reduceIte,
      update_prop, if_neg hm]
    rw [hroute, setRoute_self hfind]
  · simp only [apply_property_rule, htype, hfind, h, String.reduceEq, reduceIte,
      update_prop, if_pos hm]
  · have hroute : { route with destination_id := route.destination_id } = route := rfl
    simp only [apply_property_rule, htype, hfind, h, String.reduceEq, reduceIte,
      update_prop, if_neg hm]
    rw [hroute, setRoute_self hfind]

/-- C5: a scalar property rule (`route_name`, `direction_type`,
`destination_id`) on an existing route overwrites the field and emits no
warning when the old value is the wildcard marker or equals the current
value viewed as optional text; otherwise it leaves the field unchanged and
emits exactly one `OldPropertyValueDoesNotMatch` warning naming the object
type, object id and property name. -/
theorem claim_C5 (c : Collections) (report : Report) (p : PropertyRule) (route : Route)
    (hfind : c.routes.find? (fun r => r.id = p.object_id) = some route)
    (htype : p.object_type = .route)
    (hname : p.property_name ∈ (["route_name", "direction_type", "destination_id"] : List String)) :
    (p.property_old_value = some "*" ∨ p.property_old_value = scalarCurrent p.property_name route →
      apply_property_rule c report p =
        ({ c with routes :=
            setRoute c.routes p.object_id (scalarSet p.property_name p.property_value route) },
          report)) ∧
    (¬(p.property_old_value = some "*" ∨ p.property_old_value = scalarCurrent p.property_name route) →
      apply_property_rule c report p =
        (c, report.add_warning (oldValueMismatchMsg p) .oldPropertyValueDoesNotMatch)) :=
  apply_scalar_update_cases c report p route hfind htype hname

/-- C5 witness: a concrete wildcard `route_name` rule overwrites the name
with no warning, and a concrete mismatching rule leaves the model unchanged
with one `OldPropertyValueDoesNotMatch` warning. -/
theorem claim_C5_witness :
    (apply_property_rule exColl5 Report.empty exRule5 =
      ({ exColl5 with routes :=
          (setRoute exColl5.routes exRule5.object_id
            (scalarSet exRule5.property_name exRule5.property_value exRoute5)) },
        Report.empty)) ∧
    (apply_property_rule exColl5 Report.empty exRule5m =
      (exColl5, Report.empty.add_warning (oldValueMismatchMsg exRule5m)
        .oldPropertyValueDoesNotMatch)) :=
  ⟨(claim_C5 exColl5 Report.empty exRule5 exRoute5 (by decide) rfl (by decide)).1 (by decide),
   (claim_C5 exColl5 Report.empty exRule5m exRoute5 (by decide) rfl (by decide)).2 (by decide)⟩

/-- C10: a `route_geometry` rule with a non-wildcard, well-formed old value
on a route whose current shape reference is absent from the geometry
collection emits one `ObjectNotFound` warning naming the object type,
object id and the missing geometry id, and is skipped with no mutation. -/
theorem claim_C10 (c : Collections) (report : Report) (p : PropertyRule) (route : Route)
    (pov gid : String) (povGeo : Geo)
    (hfind : c.routes.find? (fun r => r.id = p.object_id) = some route)
    (htype : p.object_type = .route)
    (hname : p.property_name = "route_geometry")
    (hold : p.property_old_value = some pov)
    (hwild : pov ≠ "*")
    (hpov : wktToGeoPure pov = some povGeo)
    (hgid : route.geometry_id = some gid)
    (hmiss : c.geometries.find? (fun g => g.id = gid) = none) :
    apply_property_rule c report p =
      (c, report.add_warning (geometryNotFoundMsg p gid) .objectNotFound) := by
  have hroute : { route with geometry_id := route.geometry_id } = route := rfl
  simp only [apply_property_rule, htype, hfind, hname, String.reduceEq, reduceIte,
    update_geometry, hold, hgid, if_neg hwild, wkt_to_geo_pure_some hpov, hmiss]
  rw [← hgid, hroute, setRoute_self hfind]

/-- C10 witness: a concrete rule on a route with a dangling shape reference
produces exactly the `ObjectNotFound` warning and leaves the model
unchanged. -/
theorem claim_C10_witness :
    apply_property_rule exColl10 Report.empty exRule10 =
      (exColl10, Report.empty.add_warning (geometryNotFoundMsg exRule10 "gone") .objectNotFound) :=
  claim_C10 exColl10 Report.empty exRule10 exRoute10 "POINT(1 2)" "gone"
    (.point ⟨1, 0⟩ ⟨2, 0⟩) (by decide) rfl rfl rfl (by decide) (by decide) rfl rfl

/-- C6: for a `route_geometry` rule with a non-wildcard old value on a
route whose referenced shape exists, the old-value match is decided by
content equality of the parsed geometries: if the parsed old value equals
the stored geometry the rule applies (shape upserted, reference rewritten,
no warning); if the parsed geometries differ the rule is rejected with an
`OldPropertyValueDoesNotMatch` warning and the route is unchanged. -/
theorem claim_C6 (c : Collections) (report : Report) (p : PropertyRule) (route : Route)
    (pov gid : String) (gEntry : Geometry) (povGeo newGeo : Geo)
    (hfind : c.routes.find? (fun r => r.id = p.object_id) = some route)
    (htype : p.object_type = .route)
    (hname : p.property_name = "route_geometry")
    (hold : p.property_old_value = some pov)
    (hwild : pov ≠ "*")
    (hpov : wktToGeoPure pov = some povGeo)
    (hgid : route.geometry_id = some gid)
    (hfound : c.geometries.find? (fun g => g.id = gid) = some gEntry)
    (hnew : wktToGeoPure p.property_value = some newGeo) :
    (povGeo = gEntry.geometry →
      apply_property_rule c report p =
        ({ c with routes := setRoute c.routes p.object_id { route with geometry_id := some (synthGeoId p) }, geometries := upsertGeometry c.geometries (synthGeoId p) newGeo }, report)) ∧
    (povGeo ≠ gEntry.geometry →
      apply_property_rule c report p =
        ({ c with geometries := upsertGeometry c.geometries (synthGeoId p) newGeo },
          report.add_warning (oldValueMismatchMsg p) .oldPropertyValueDoesNotMatch)) := by
  have hroute : { route with geometry_id := route.geometry_id } = route := rfl
  constructor <;> intro hp
  · simp only [apply_property_rule, htype, hfind, hname, String.reduceEq, reduceIte,
      update_geometry, hold, hgid, if_neg hwild, wkt_to_geo_pure_some hpov, hfound,
      if_neg (not_not_intro hp), update_geometry_tail, get_geometry_id,
      wkt_to_geo_pure_some hnew, update_prop, synthGeoId]
    simp
  · have hcond : ¬(none = some "*" ∨ (none : Option String) = some gid) := by simp
    have hroute2 : { route with geometry_id := some gid } = route := by rw [← hgid]
    simp only [apply_property_rule, htype, hfind, hname, String.reduceEq, reduceIte,
      update_geometry, hold, hgid, if_neg hwild, wkt_to_geo_pure_some hpov, hfound,
      if_pos hp, update_geometry_tail, get_geometry_id,
      wkt_to_geo_pure_some hnew, update_prop, synthGeoId]
    rw [if_neg hcond]
    simp [oldValueMismatchMsg, hroute2, setRoute_self hfind, htype, hname]

/-- C6 witness: the old value text `POINT(1.0 2.0)` differs textually from
the stored shape but denotes the same geometry, so the rule applies; the
old value `POINT(1 9)` has differing coordinates, so the rule is
rejected. -/
theorem claim_C6_witness :
    (apply_property_rule exColl6 Report.empty exRule6a =
      ({ exColl6 with routes := setRoute exColl6.routes exRule6a.object_id { exRoute6 with geometry_id := some (synthGeoId exRule6a) }, geometries := upsertGeometry exColl6.geometries (synthGeoId exRule6a) (.point ⟨3, 0⟩ ⟨4, 0⟩) }, Report.empty)) ∧
    (apply_property_rule exColl6 Report.empty exRule6b =
      ({ exColl6 with geometries := upsertGeometry exColl6.geometries (synthGeoId exRule6b) (.point ⟨3, 0⟩ ⟨4, 0⟩) },
        Report.empty.add_warning (oldValueMismatchMsg exRule6b) .oldPropertyValueDoesNotMatch)) :=
  ⟨(claim_C6 exColl6 Report.empty exRule6a exRoute6 "POINT(1.0 2.0)" "g6" exGeom6
      (.point ⟨1, 0⟩ ⟨2, 0⟩) (.point ⟨3, 0⟩ ⟨4, 0⟩) (by decide) rfl rfl rfl (by decide)
      (by decide) rfl (by decide) (by decide)).1 (by decide),
   (claim_C6 exColl6 Report.empty exRule6b exRoute6 "POINT(1 9)" "g6" exGeom6
      (.point ⟨1, 0⟩ ⟨9, 0⟩) (.point ⟨3, 0⟩ ⟨4, 0⟩) (by decide) rfl rfl rfl (by decide)
      (by decide) rfl (by decide) (by decide)).2 (by decide)⟩

/-- C7 counterexample: the supplied new value `POINT EMPTY` fails to parse
to a geometry (the parse pipeline returns nothing), yet the rule is skipped
with no mutation and zero `GeometryNotValid` warnings, refuting "exactly
one GeometryNotValid warning is emitted" for this failing parse. -/
theorem claim_C7_counterexample :
    (wkt_to_geo exRule7.property_value Report.empty exRule7).1 = none ∧
    apply_property_rule exColl7 Report.empty exRule7 = (exColl7, Report.empty) := by
  decide

/-- C7 (amended): exactly one GeometryNotValid warning naming the object
type and object id is emitted, and the rule is skipped with no mutation,
whenever a supplied geometry value reaches WKT parsing and the parse
fails — the non-wildcard old value when a current shape reference exists,
and the new value whenever the old-value phase falls through to the upsert
step (old value absent; old value present with no current shape reference;
or non-wildcard old value with a current shape reference whose geometry
parses and whose referenced shape record exists).  At each of those parse
sites, a value that instead parses as WKT but converts to no geometry (an
empty point) causes the rule to be skipped with no mutation and records no
warning. -/
theorem claim_C7 (c : Collections) (report : Report) (p : PropertyRule) (route : Route)
    (hfind : c.routes.find? (fun r => r.id = p.object_id) = some route)
    (htype : p.object_type = .route)
    (hname : p.property_name = "route_geometry") :
    (∀ pov gid, p.property_old_value = some pov → pov ≠ "*" → route.geometry_id = some gid →
      wktFromStr pov = none →
      apply_property_rule c report p =
        (c, report.add_warning (geometryNotValidMsg p) .geometryNotValid)) ∧
    (∀ pov gid item, p.property_old_value = some pov → pov ≠ "*" →
      route.geometry_id = some gid → wktFromStr pov = some item →
      try_into_geometry item = none →
      apply_property_rule c report p = (c, report)) ∧
    (p.property_old_value = none → wktFromStr p.property_value = none →
      apply_property_rule c report p =
        (c, report.add_warning (geometryNotValidMsg p) .geometryNotValid)) ∧
    (∀ pov, p.property_old_value = some pov → route.geometry_id = none →
      wktFromStr p.property_value = none →
      apply_property_rule c report p =
        (c, report.add_warning (geometryNotValidMsg p) .geometryNotValid)) ∧
    (∀ pov gid gEntry povGeo, p.property_old_value = some pov → pov ≠ "*" →
      route.geometry_id = some gid → wktToGeoPure pov = some povGeo →
      c.geometries.find? (fun g => g.id = gid) = some gEntry →
      wktFromStr p.property_value = none →
      apply_property_rule c report p =
        (c, report.add_warning (geometryNotValidMsg p) .geometryNotValid)) ∧
    (∀ item, p.property_old_value = none → wktFromStr p.property_value = some item →
      try_into_geometry item = none →
      apply_property_rule c report p = (c, report)) ∧
    (∀ pov item, p.property_old_value = some pov → route.geometry_id = none →
      wktFromStr p.property_value = some item → try_into_geometry item = none →
      apply_property_rule c report p = (c, report)) ∧
    (∀ pov gid gEntry povGeo item, p.property_old_value = some pov → pov ≠ "*" →
      route.geometry_id = some gid → wktToGeoPure pov = some povGeo →
      c.geometries.find? (fun g => g.id = gid) = some gEntry →
      wktFromStr p.property_value = some item → try_into_geometry item = none →
      apply_property_rule c report p = (c, report)) := by
  have hroute : { route with geometry_id := route.geometry_id } = route := rfl
  refine ⟨?_, ?_, ?_, ?_, ?_, ?_, ?_, ?_⟩
  · intro pov gid hold hwild hgid hbad
    simp only [apply_property_rule, htype, hfind, hname, String.reduceEq, reduceIte,
      update_geometry, hold, hgid, if_neg hwild, wkt_to_geo, hbad]
    rw [← hgid, hroute, setRoute_self hfind]
  · intro pov gid item hold hwild hgid hpar hconv
    simp only [apply_property_rule, htype, hfind, hname, String.reduceEq, reduceIte,
      update_geometry, hold, hgid, if_neg hwild, wkt_to_geo, hpar, hconv]
    rw [← hgid, hroute, setRoute_self hfind]
  · intro hold hbad
    cases hg : route.geometry_id with
    | none =>
      simp only [apply_property_rule, htype, hfind, hname, String.reduceEq, reduceIte,
        update_geometry, hold, hg, update_geometry_tail, get_geometry_id, wkt_to_geo, hbad,
        geometryNotValidMsg]
      rw [← hg, hroute, setRoute_self hfind]
    | some gid =>
      have hroute2 : { route with geometry_id := some gid } = route := by rw [← hg]
      simp only [apply_property_rule, htype, hfind, hname, String.reduceEq, reduceIte,
        update_geometry, hold, hg, update_geometry_tail, get_geometry_id, wkt_to_geo, hbad,
        geometryNotValidMsg]
      rw [hroute2, setRoute_self hfind]
  · intro pov hold hgid hbad
    simp only [apply_property_rule, htype, hfind, hname, String.reduceEq, reduceIte,
      update_geometry, hold, hgid, update_geometry_tail, get_geometry_id, wkt_to_geo, hbad,
      geometryNotValidMsg]
    rw [← hgid, hroute, setRoute_self hfind]
  · intro pov gid gEntry povGeo hold hwild hgid hpov hfound hbad
    have hroute2 : { route with geometry_id := some gid } = route := by rw [← hgid]
    simp only [apply_property_rule, htype, hfind, hname, String.reduceEq, reduceIte,
      update_geometry, hold, hgid, if_neg hwild, wkt_to_geo_pure_some hpov, hfound]
    simp only [update_geometry_tail, get_geometry_id, wkt_to_geo, hbad, geometryNotValidMsg]
    rw [hroute2, setRoute_self hfind, htype]
  · intro item hold hpar hconv
    cases hg : route.geometry_id with
    | none =>
      simp only [apply_property_rule, htype, hfind, hname, String.reduceEq, reduceIte,
        update_geometry, hold, hg, update_geometry_tail, get_geometry_id, wkt_to_geo, hpar,
        hconv]
      rw [← hg, hroute, setRoute_self hfind]
    | some gid =>
      have hroute2 : { route with geometry_id := some gid } = route := by rw [← hg]
      simp only [apply_property_rule, htype, hfind, hname, String.reduceEq, reduceIte,
        update_geometry, hold, hg, update_geometry_tail, get_geometry_id, wkt_to_geo, hpar,
        hconv]
      rw [hroute2, setRoute_self hfind]
  · intro pov item hold hgid hpar hconv
    simp only [apply_property_rule, htype, hfind, hname, String.reduceEq, reduceIte,
      update_geometry, hold, hgid, update_geometry_tail, get_geometry_id, wkt_to_geo, hpar,
      hconv]
    rw [← hgid, hroute, setRoute_self hfind]
  · intro pov gid gEntry povGeo item hold hwild hgid hpov hfound hpar hconv
    have hroute2 : { route with geometry_id := some gid } = route := by rw [← hgid]
    simp only [apply_property_rule, htype, hfind, hname, String.reduceEq, reduceIte,
      update_geometry, hold, hgid, if_neg hwild, wkt_to_geo_pure_some hpov, hfound]
    simp only [update_geometry_tail, get_geometry_id, wkt_to_geo, hpar, hconv]
    rw [hroute2, setRoute_self hfind]

/-- C7 witness: concrete instances of all eight amended cases — invalid or
empty-point old value with a shape reference, and invalid or empty-point
new value in each of the three fall-through configurations of the
old-value phase. -/
theorem claim_C7_witness :
    (apply_property_rule exColl1 Report.empty exRule7a =
      (exColl1, Report.empty.add_warning (geometryNotValidMsg exRule7a) .geometryNotValid)) ∧
    (apply_property_rule exColl1 Report.empty exRule7c = (exColl1, Report.empty)) ∧
    (apply_property_rule exColl7 Report.empty exRule7b =
      (exColl7, Report.empty.add_warning (geometryNotValidMsg exRule7b) .geometryNotValid)) ∧
    (apply_property_rule exColl7 Report.empty exRule7d =
      (exColl7, Report.empty.add_warning (geometryNotValidMsg exRule7d) .geometryNotValid)) ∧
    (apply_property_rule exColl1 Report.empty exRule7e =
      (exColl1, Report.empty.add_warning (geometryNotValidMsg exRule7e) .geometryNotValid)) ∧
    (apply_property_rule exColl7 Report.empty exRule7 = (exColl7, Report.empty)) ∧
    (apply_property_rule exColl7 Report.empty exRule7f = (exColl7, Report.empty)) ∧
    (apply_property_rule exColl1 Report.empty exRule7g = (exColl1, Report.empty)) :=
  ⟨(claim_C7 exColl1 Report.empty exRule7a exRoute1 (by decide) rfl rfl).1 "garbage" "g1"
      rfl (by decide) rfl (by decide),
   (claim_C7 exColl1 Report.empty exRule7c exRoute1 (by decide) rfl rfl).2.1 "POINT EMPTY"
      "g1" (.pointItem none) rfl (by decide) rfl (by decide) (by decide),
   (claim_C7 exColl7 Report.empty exRule7b exRoute7 (by decide) rfl rfl).2.2.1 rfl (by decide),
   (claim_C7 exColl7 Report.empty exRule7d exRoute7 (by decide) rfl rfl).2.2.2.1 "POINT(1 2)"
      rfl rfl (by decide),
   (claim_C7 exColl1 Report.empty exRule7e exRoute1 (by decide) rfl rfl).2.2.2.2.1 "POINT(0 0)"
      "g1" exGeom1 (.point ⟨0, 0⟩ ⟨0, 0⟩) rfl (by decide) rfl (by decide) (by decide) (by decide),
   (claim_C7 exColl7 Report.empty exRule7 exRoute7 (by decide) rfl rfl).2.2.2.2.2.1
      (.pointItem none) rfl (by decide) (by decide),
   (claim_C7 exColl7 Report.empty exRule7f exRoute7 (by decide) rfl rfl).2.2.2.2.2.2.1
      "POINT(1 2)" (.pointItem none) rfl rfl (by decide) (by decide),
   (claim_C7 exColl1 Report.empty exRule7g exRoute1 (by decide) rfl rfl).2.2.2.2.2.2.2
      "POINT(0 0)" "g1" exGeom1 (.point ⟨0, 0⟩ ⟨0, 0⟩) (.pointItem none) rfl (by decide) rfl
      (by decide) (by decide) (by decide) (by decide)⟩

theorem wkt_to_geo_some_eq {w : String} {rep : Report} {p : PropertyRule} {g : Geo} {r : Report}
    (h : wkt_to_geo w rep p = (some g, r)) : r = rep := by
  cases hw : wktFromStr w with
  | none => simp [wkt_to_geo, hw] at h
  | some item =>
    cases hti : try_into_geometry item with
    | none => simp [wkt_to_geo, hw, hti] at h
    | some g2 =>
      simp only [wkt_to_geo, hw, hti, Prod.mk.injEq] at h
      exact h.2.symm

theorem update_geometry_tail_cases (p : PropertyRule) (gid : Option String) (r : Report)
    (geoms : List Geometry) :
    (update_geometry_tail p gid r geoms).2.1 = gid ∨
    Report.countType (update_geometry_tail p gid r geoms).2.2.1 .oldPropertyValueDoesNotMatch =
      Report.countType r .oldPropertyValueDoesNotMatch := by
  unfold update_geometry_tail get_geometry_id
  cases hw : wkt_to_geo p.property_value r p with
  | mk og r2 =>
    cases og with
    | none => left; rfl
    | some geo =>
      have hr2 : r2 = r := wkt_to_geo_some_eq hw
      simp only [update_prop]
      split
      · right
        simp [hr2]
      · left
        rfl

theorem update_geometry_cases (p : PropertyRule) (geo_id : Option String) (report : Report)
    (geoms : List Geometry) :
    (update_geometry p geo_id report geoms).2.1 = geo_id ∨
    Report.countType (update_geometry p geo_id report geoms).2.2.1 .oldPropertyValueDoesNotMatch =
      Report.countType report .oldPropertyValueDoesNotMatch := by
  rcases geo_id with _ | gid <;> rcases hpo : p.property_old_value with _ | pov <;>
    simp only [update_geometry, hpo]
  · exact update_geometry_tail_cases p none report geoms
  · exact update_geometry_tail_cases { p with property_old_value := none } none report geoms
  · exact update_geometry_tail_cases { p with property_old_value := none } (some gid) report geoms
  · by_cases hw : pov = "*"
    · simp [hw]
    · simp only [if_neg hw]
      cases hwg : wkt_to_geo pov report p with
      | mk og r2 =>
        cases og with
        | none => exact Or.inl rfl
        | some povGeo =>
          cases hf : geoms.find? (fun g => g.id = gid) with
          | none => exact Or.inl rfl
          | some gentry =>
            have hr2 : r2 = report := wkt_to_geo_some_eq hwg
            subst hr2
            rcases update_geometry_tail_cases
                { p with property_old_value := if povGeo ≠ gentry.geometry then none else some gid }
                (some gid) r2 geoms with hc | hc
            · exact Or.inl hc
            · exact Or.inr hc

/-- C1 (amended): for scalar rules the application is atomic — either the
old-value check passes and only the route field is written with no warning,
or nothing is written and one mismatch warning is recorded; for
`route_geometry`, a rule rejected by the old-value check leaves the route
shape-reference field unchanged, but the shape upsert precedes that check,
so the geometry collection may already have gained or overwritten the
record keyed `object_type:object_id`. -/
theorem claim_C1 :
    (∀ (c : Collections) (report : Report) (p : PropertyRule) (route : Route),
      c.routes.find? (fun r => r.id = p.object_id) = some route →
      p.object_type = .route →
      p.property_name ∈ (["route_name", "direction_type", "destination_id"] : List String) →
      apply_property_rule c report p =
        ({ c with routes :=
            setRoute c.routes p.object_id (scalarSet p.property_name p.property_value route) },
          report) ∨
      apply_property_rule c report p =
        (c, report.add_warning (oldValueMismatchMsg p) .oldPropertyValueDoesNotMatch)) ∧
    (∀ (p : PropertyRule) (geo_id : Option String) (report : Report) (geoms : List Geometry),
      Report.countType (update_geometry p geo_id report geoms).2.2.1 .oldPropertyValueDoesNotMatch ≠
        Report.countType report .oldPropertyValueDoesNotMatch →
      (update_geometry p geo_id report geoms).2.1 = geo_id) := by
  constructor
  · intro c report p route hfind htype hname
    by_cases hm : p.property_old_value = some "*" ∨
        p.property_old_value = scalarCurrent p.property_name route
    · exact Or.inl ((apply_scalar_update_cases c report p route hfind htype hname).1 hm)
    · exact Or.inr ((apply_scalar_update_cases c report p route hfind htype hname).2 hm)
  · intro p geo_id report geoms h
    rcases update_geometry_cases p geo_id report geoms with hc | hc
    · exact hc
    · exact absurd hc h

/-- C1 counterexample: a concrete `route_geometry` rule rejected for
old-value mismatch (one `OldPropertyValueDoesNotMatch` warning, route
unchanged) nevertheless mutates the geometry collection, refuting "nothing
in the model is written for that rule". -/
theorem claim_C1_counterexample :
    ((apply_property_rule exColl1 Report.empty exRule1).1.routes = exColl1.routes) ∧
    (Report.countType (apply_property_rule exColl1 Report.empty exRule1).2
      .oldPropertyValueDoesNotMatch = 1) ∧
    ((apply_property_rule exColl1 Report.empty exRule1).1.geometries ≠ exColl1.geometries) := by
  decide

/-- C1 witness: the amended theorem applied at a concrete scalar rule and
at a concrete `update_geometry` call whose report gained a mismatch
warning. -/
theorem claim_C1_witness :
    (apply_property_rule exColl5 Report.empty exRule5m =
      ({ exColl5 with routes :=
          (setRoute exColl5.routes exRule5m.object_id
            (scalarSet exRule5m.property_name exRule5m.property_value exRoute5)) },
        Report.empty) ∨
      apply_property_rule exColl5 Report.empty exRule5m =
        (exColl5, Report.empty.add_warning (oldValueMismatchMsg exRule5m)
          .oldPropertyValueDoesNotMatch)) ∧
    ((update_geometry exRule1 (some "g1") Report.empty [exGeom1]).2.1 = some "g1") :=
  ⟨claim_C1.1 exColl5 Report.empty exRule5m exRoute5 (by decide) rfl (by decide),
   claim_C1.2 exRule1 (some "g1") Report.empty [exGeom1] (by decide)⟩

theorem updateFirst_idem {T : Type} {pred : T → Bool} {f : T → T}
    (hpred : ∀ x, pred x = true → pred (f x) = true)
    (hff : ∀ x, pred x = true → f (f x) = f x) :
    ∀ l : List T, updateFirst pred f (updateFirst pred f l) = updateFirst pred f l := by
  intro l
  induction l with
  | nil => rfl
  | cons x xs ih =>
    by_cases hx : pred x
    · simp [updateFirst, hx, hpred x hx, hff x hx]
    · simp [updateFirst, hx, ih]

theorem find?_isSome_updateFirst {T : Type} {pred : T → Bool} {f : T → T}
    (hpred : ∀ x, pred x = true → pred (f x) = true) :
    ∀ l : List T, ((updateFirst pred f l).find? pred).isSome = (l.find? pred).isSome := by
  intro l
  induction l with
  | nil => rfl
  | cons x xs ih =>
    by_cases hx : pred x
    · simp [updateFirst, hx, List.find?_cons_of_pos, hpred x hx]
    · simp [updateFirst, hx, List.find?_cons_of_neg, ih]

theorem insert_code_idem {T : Type} (getId : T → String) (addCode : T → String × String → T)
    (hid : ∀ o pr, getId (addCode o pr) = getId o)
    (hidem : ∀ o pr, addCode (addCode o pr) pr = addCode o pr)
    (collection : List T) (code : ComplementaryCode) (r : Report) :
    (insert_code getId addCode (insert_code getId addCode collection code r).1 code
      (insert_code getId addCode collection code r).2).1 =
    (insert_code getId addCode collection code r).1 := by
  have hpred : ∀ x : T, (decide (getId x = code.object_id)) = true →
      (decide (getId (addCode x (code.object_system, code.object_code)) = code.object_id))
        = true := by
    intro x hx
    simpa [hid] using hx
  have hff : ∀ x : T, (decide (getId x = code.object_id)) = true →
      addCode (addCode x (code.object_system, code.object_code))
        (code.object_system, code.object_code) =
      addCode x (code.object_system, code.object_code) := by
    intro x _
    exact hidem x _
  by_cases hs : (collection.find? (fun o => getId o = code.object_id)).isSome
  · have h1 := find?_isSome_updateFirst hpred collection
    simp only [insert_code, hs, h1, reduceIte]
    exact updateFirst_idem hpred hff collection
  · rw [Bool.not_eq_true] at hs
    simp [insert_code, hs]

/-- C8: inserting a `ComplementaryCode` into an existing object graph is
idempotent — applying the same code twice leaves the collections (and in
particular the per-object code sets) identical to applying it once. -/
theorem claim_C8 (c : Collections) (code : ComplementaryCode) (r : Report) :
    (applyCode (applyCode c code r).1 code (applyCode c code r).2).1 = (applyCode c code r).1 := by
  have hlineid : ∀ (o : CodedObject) (pr : String × String), (o.addCode pr).id = o.id := by
    intro o pr
    rfl
  have hlineidem : ∀ (o : CodedObject) (pr : String × String),
      (o.addCode pr).addCode pr = o.addCode pr := by
    intro o pr
    simp [CodedObject.addCode, Finset.insert_idem]
  have hrouteid : ∀ (o : Route) (pr : String × String), (o.addCode pr).id = o.id := by
    intro o pr
    rfl
  have hrouteidem : ∀ (o : Route) (pr : String × String),
      (o.addCode pr).addCode pr = o.addCode pr := by
    intro o pr
    simp [Route.addCode, Finset.insert_idem]
  cases hot : code.object_type
  · cases hic : insert_code CodedObject.id CodedObject.addCode c.lines code r with
    | mk L1 R1 =>
      have h := insert_code_idem CodedObject.id CodedObject.addCode hlineid hlineidem
        c.lines code r
      rw [hic] at h
      simp only [applyCode, hot, hic]
      cases hic2 : insert_code CodedObject.id CodedObject.addCode L1 code R1 with
      | mk L2 R2 =>
        rw [hic2] at h
        rw [h]
  · cases hic : insert_code Route.id Route.addCode c.routes code r with
    | mk L1 R1 =>
      have h := insert_code_idem Route.id Route.addCode hrouteid hrouteidem c.routes code r
      rw [hic] at h
      simp only [applyCode, hot, hic]
      cases hic2 : insert_code Route.id Route.addCode L1 code R1 with
      | mk L2 R2 =>
        rw [hic2] at h
        rw [h]
  · cases hic : insert_code CodedObject.id CodedObject.addCode c.stop_points code r with
    | mk L1 R1 =>
      have h := insert_code_idem CodedObject.id CodedObject.addCode hlineid hlineidem
        c.stop_points code r
      rw [hic] at h
      simp only [applyCode, hot, hic]
      cases hic2 : insert_code CodedObject.id CodedObject.addCode L1 code R1 with
      | mk L2 R2 =>
        rw [hic2] at h
        rw [h]
  · cases hic : insert_code CodedObject.id CodedObject.addCode c.stop_areas code r with
    | mk L1 R1 =>
      have h := insert_code_idem CodedObject.id CodedObject.addCode hlineid hlineidem
        c.stop_areas code r
      rw [hic] at h
      simp only [applyCode, hot, hic]
      cases hic2 : insert_code CodedObject.id CodedObject.addCode L1 code R1 with
      | mk L2 R2 =>
        rw [hic2] at h
        rw [h]

/-- C2 (amended): within each rule kind every file is read to completion
before any rule of that kind is applied; complementary codes are applied
before the property-rule files are opened.  If a complementary-code file
fails to open the object graph is unchanged; if a property-rule file fails
to open the code insertions are already committed and no property mutation
has occurred. -/
theorem claim_C2 (c : Collections) (cf : List (RuleFile ComplementaryCode))
    (pf : List (RuleFile PropertyRule)) :
    ((read_complementary_code_rules_files cf Report.empty).1 = none →
      (apply_rules c cf pf).2.1 = c) ∧
    (∀ codes r1, read_complementary_code_rules_files cf Report.empty = (some codes, r1) →
      (read_property_rules_files pf (applyCodes c r1 codes).2).1 = none →
      (apply_rules c cf pf).2.1 = (applyCodes c r1 codes).1) := by
  constructor
  · intro h
    unfold apply_rules
    cases hrc : read_complementary_code_rules_files cf Report.empty with
    | mk o r =>
      rw [hrc] at h
      subst h
      rfl
  · intro codes r1 hrc hrp
    unfold apply_rules
    rw [hrc]
    cases hac : applyCodes c r1 codes with
    | mk c2 r2 =>
      simp only [hac] at hrp ⊢
      cases hrp2 : read_property_rules_files pf r2 with
      | mk o3 r3 =>
        rw [hrp2] at hrp
        subst hrp
        rfl

/-- C2 counterexample: with one readable complementary-code file and one
unopenable property-rule file, `apply_rules` aborts fatally yet the object
graph has already been mutated by the code insertion, refuting "if opening
any rule source fails fatally, the object graph is left entirely
unchanged". -/
theorem claim_C2_counterexample :
    (apply_rules exColl2 [exCodeFile2] [none]).1 = some () ∧
    (apply_rules exColl2 [exCodeFile2] [none]).2.1 ≠ exColl2 := by
  have h1 : read_complementary_code_rules_files [exCodeFile2] Report.empty =
      (some [exCode2], Report.empty) := by
    unfold read_complementary_code_rules_files
    rw [show readRows [exCodeFile2] Report.empty =
      (some [exCode2], Report.empty) from rfl]
    show (some (Finset.sort (fun a b => a ≤ b) ([exCode2] : List ComplementaryCode).toFinset),
      Report.empty) = (some [exCode2], Report.empty)
    rw [show ([exCode2] : List ComplementaryCode).toFinset = {exCode2} from rfl,
      Finset.sort_singleton]
  unfold apply_rules
  rw [h1]
  refine ⟨rfl, ?_⟩
  decide

/-- C2 witness: the amended theorem applied to a failing code file (graph
unchanged) and to a failing property file after an empty code phase. -/
theorem claim_C2_witness :
    ((apply_rules exColl2 [none] []).2.1 = exColl2) ∧
    ((apply_rules exColl2 [] [none]).2.1 = (applyCodes exColl2 Report.empty []).1) := by
  constructor
  · exact (claim_C2 exColl2 [none] []).1 rfl
  · refine (claim_C2 exColl2 [] [none]).2 [] Report.empty ?_ rfl
    simp [read_complementary_code_rules_files, readRows, List.toFinset_nil, Finset.sort_empty]

theorem readRows_fst {α : Type} [DecidableEq α] :
    ∀ (files : List (RuleFile α)) (r : Report),
      (readRows files r).1 = if none ∈ files then none
        else some (files.flatMap (fun f => (f.getD []).filterMap id)) := by
  intro files
  induction files with
  | nil => intro r; simp [readRows]
  | cons f rest ih =>
    intro r
    cases f with
    | none => simp [readRows]
    | some rows =>
      simp only [readRows]
      cases hrr : readRows rest (rows.foldl
          (fun r row =>
            if row.isNone then r.add_warning "Error reading rule file" .invalidFile else r)
          r) with
      | mk o r3 =>
        have hx := ih (rows.foldl
          (fun r row =>
            if row.isNone then r.add_warning "Error reading rule file" .invalidFile else r)
          r)
        rw [hrr] at hx
        by_cases hm : none ∈ rest
        · rw [if_pos hm] at hx
          subst hx
          simp [List.mem_cons, hm]
        · rw [if_neg hm] at hx
          subst hx
          have hco : (none ∈ some rows :: rest) = False := by
            simp [List.mem_cons, hm]
          simp [hco, List.flatMap_cons]

theorem read_cc_fst_perm {cf cf' : List (RuleFile ComplementaryCode)} (h : cf.Perm cf')
    (r r' : Report) :
    (read_complementary_code_rules_files cf r).1 =
      (read_complementary_code_rules_files cf' r').1 := by
  unfold read_complementary_code_rules_files
  cases hr1 : readRows cf r with
  | mk o1 rr1 =>
    cases hr2 : readRows cf' r' with
    | mk o2 rr2 =>
      have h1 := readRows_fst cf r
      have h2 := readRows_fst cf' r'
      rw [hr1] at h1
      rw [hr2] at h2
      by_cases hm : none ∈ cf
      · rw [if_pos hm] at h1
        rw [if_pos (h.mem_iff.mp hm)] at h2
        subst h1
        subst h2
        rfl
      · rw [if_neg hm] at h1
        rw [if_neg (fun hx => hm (h.mem_iff.mpr hx))] at h2
        subst h1
        subst h2
        have hp := List.Perm.flatMap_right (fun f => (f.getD []).filterMap id) h
        simp [List.toFinset_eq_of_perm _ _ hp]

theorem filterGroup_eq (S : Finset PropertyRule) (k : RuleKey) (r : Report) :
    filterGroup k (groupOf S k) r = (keptKey S k, ⟨r.warnings ++ keyWarnings S k⟩) := by
  unfold filterGroup keptKey keyWarnings
  cases hot : k.object_type
  · simp [Report.mk.injEq]
  · by_cases hn : k.property_name ∈ allowedRouteProps
    · by_cases hc : 1 < (groupOf S k).card
      · simp [hn, hc, Nat.not_le_of_lt hc, Report.add_warning]
      · simp [hn, hc, Nat.le_of_not_lt (fun hx => hc hx), Report.add_warning]
    · simp [hn, Report.add_warning]
  · simp [Report.mk.injEq]
  · simp [Report.mk.injEq]

theorem processKey_foldl (S : Finset PropertyRule) :
    ∀ (ks : List RuleKey) (acc : List PropertyRule × Report),
      ks.foldl (processKey S) acc =
        (acc.1 ++ ks.flatMap (fun k => if keptKey S k then (groupOf S k).sort (· ≤ ·) else []),
          ⟨acc.2.warnings ++ ks.flatMap (keyWarnings S)⟩) := by
  intro ks
  induction ks with
  | nil => intro acc; simp
  | cons k ks ih =>
    intro acc
    rw [List.foldl_cons]
    rw [ih]
    unfold processKey
    rw [filterGroup_eq]
    cases hk : keptKey S k
    · simp [List.flatMap_cons, hk]
    · simp [List.flatMap_cons, hk]

theorem processGroups_eq (rows : List PropertyRule) (report : Report) :
    processGroups rows report =
      (((rows.toFinset.image PropertyRule.key).sort (· ≤ ·)).flatMap
          (fun k => if keptKey rows.toFinset k then (groupOf rows.toFinset k).sort (· ≤ ·) else []),
        ⟨report.warnings ++
          ((rows.toFinset.image PropertyRule.key).sort (· ≤ ·)).flatMap
            (keyWarnings rows.toFinset)⟩) := by
  unfold processGroups
  rw [processKey_foldl]
  simp

theorem read_pr_fst_perm {pf pf' : List (RuleFile PropertyRule)} (h : pf.Perm pf')
    (r r' : Report) :
    (read_property_rules_files pf r).1 = (read_property_rules_files pf' r').1 := by
  unfold read_property_rules_files
  cases hr1 : readRows pf r with
  | mk o1 rr1 =>
    cases hr2 : readRows pf' r' with
    | mk o2 rr2 =>
      have h1 := readRows_fst pf r
      have h2 := readRows_fst pf' r'
      rw [hr1] at h1
      rw [hr2] at h2
      by_cases hm : none ∈ pf
      · rw [if_pos hm] at h1
        rw [if_pos (h.mem_iff.mp hm)] at h2
        subst h1
        subst h2
        rfl
      · rw [if_neg hm] at h1
        rw [if_neg (fun hx => hm (h.mem_iff.mpr hx))] at h2
        subst h1
        subst h2
        have hp := List.Perm.flatMap_right (fun f => (f.getD []).filterMap id) h
        have hts := List.toFinset_eq_of_perm _ _ hp
        simp only [processGroups_eq, hts]

/-- C9: deduplication is order-independent — for permuted lists of the same
rule source files (unchanged contents), the deduplicated complementary-code
sequence and the deduplicated, ambiguity-filtered property-rule sequence
produced by the loaders are identical. -/
theorem claim_C9 (cf cf' : List (RuleFile ComplementaryCode))
    (pf pf' : List (RuleFile PropertyRule)) (r1 r2 r3 r4 : Report)
    (hc : cf.Perm cf') (hp : pf.Perm pf') :
    (read_complementary_code_rules_files cf r1).1 =
      (read_complementary_code_rules_files cf' r2).1 ∧
    (read_property_rules_files pf r3).1 = (read_property_rules_files pf' r4).1 :=
  ⟨read_cc_fst_perm hc r1 r2, read_pr_fst_perm hp r3 r4⟩

theorem claim_C9_witness :
    ((read_complementary_code_rules_files [exCodeFileA, exCodeFileB] Report.empty).1 =
      (read_complementary_code_rules_files [exCodeFileB, exCodeFileA] Report.empty).1) ∧
    ((read_property_rules_files [exPropFileA, exPropFileB] Report.empty).1 =
      (read_property_rules_files [exPropFileB, exPropFileA] Report.empty).1) :=
  claim_C9 [exCodeFileA, exCodeFileB] [exCodeFileB, exCodeFileA]
    [exPropFileA, exPropFileB] [exPropFileB, exPropFileA]
    Report.empty Report.empty Report.empty Report.empty
    (List.Perm.swap exCodeFileB exCodeFileA []) (List.Perm.swap exPropFileB exPropFileA [])

theorem countP_flatMap {α β : Type} (f : α → List β) (pred : β → Bool) (q : α → Bool)
    (hf : ∀ a, (f a).countP pred = if q a then 1 else 0) :
    ∀ ks : List α, (ks.flatMap f).countP pred = ks.countP q := by
  intro ks
  induction ks with
  | nil => simp
  | cons k ks ih =>
    by_cases hk : q k
    · simp [List.flatMap_cons, List.countP_append, List.countP_cons, hf, hk, ih,
        Nat.add_comm]
    · simp [List.flatMap_cons, List.countP_append, List.countP_cons, hf, hk, ih]

theorem keyWarnings_countP_mv (S : Finset PropertyRule) (k : RuleKey) :
    (keyWarnings S k).countP (fun w => w.2 = ReportType.multipleValue) =
      if decide (ambiguousKey S k) then 1 else 0 := by
  obtain ⟨kt, ki, kn⟩ := k
  unfold keyWarnings ambiguousKey
  cases kt
  · simp
  · by_cases hn : kn ∈ allowedRouteProps
    · by_cases hc : 1 < (groupOf S ⟨.route, ki, kn⟩).card
      · simp [hn, hc, List.countP_cons]
      · simp [hn, hc]
    · simp [hn, List.countP_cons]
  · simp
  · simp

theorem sort_countP_eq_filter_card (keys : Finset RuleKey) (S : Finset PropertyRule) :
    (keys.sort (· ≤ ·)).countP (fun k => decide (ambiguousKey S k)) =
      (keys.filter (fun k => ambiguousKey S k)).card := by
  rw [List.Perm.countP_eq _ (Finset.sort_perm_toList (· ≤ ·) keys)]
  have h1 : (Multiset.countP (fun k => ambiguousKey S k) ↑keys.toList) =
      keys.toList.countP (fun k => decide (ambiguousKey S k)) :=
    Multiset.coe_countP _ _
  rw [← h1, Finset.coe_toList, Multiset.countP_eq_card_filter]
  rfl

/-- C3 (amended): among groups that pass the object-type and property-name
validation (object type Route, known property name), every group still
holding more than one distinct rule after dedup contributes exactly one
`MultipleValue` warning naming its object type, object id and property
name, and none of its rules is applied; groups with exactly one surviving
rule pass through. -/
theorem claim_C3 (rows : List PropertyRule) (report : Report) :
    (Report.countType (processGroups rows report).2 .multipleValue =
      Report.countType report .multipleValue +
        ((rows.toFinset.image PropertyRule.key).filter
          (fun k => ambiguousKey rows.toFinset k)).card) ∧
    (∀ k ∈ rows.toFinset.image PropertyRule.key, ambiguousKey rows.toFinset k →
      (multipleValueMsg k, ReportType.multipleValue) ∈ (processGroups rows report).2.warnings) ∧
    (∀ k, ambiguousKey rows.toFinset k →
      ∀ q ∈ groupOf rows.toFinset k, q ∉ (processGroups rows report).1) ∧
    (∀ k ∈ rows.toFinset.image PropertyRule.key, k.object_type = .route →
      k.property_name ∈ allowedRouteProps → (groupOf rows.toFinset k).card = 1 →
      ∀ q ∈ groupOf rows.toFinset k, q ∈ (processGroups rows report).1) := by
  rw [processGroups_eq]
  refine ⟨?_, ?_, ?_, ?_⟩
  · unfold Report.countType
    rw [List.countP_append]
    rw [countP_flatMap (keyWarnings rows.toFinset) _
      (fun k => decide (ambiguousKey rows.toFinset k)) (keyWarnings_countP_mv rows.toFinset)]
    rw [sort_countP_eq_filter_card]
  · intro k hk hamb
    simp only [List.mem_append, List.mem_flatMap]
    right
    refine ⟨k, (Finset.mem_sort (· ≤ ·)).mpr hk, ?_⟩
    obtain ⟨h1, h2, h3⟩ := hamb
    simp [keyWarnings, h1, h2, h3]
  · intro k hamb q hq hmem
    rw [List.mem_flatMap] at hmem
    obtain ⟨k2, hk2, hq2⟩ := hmem
    by_cases hkept : keptKey rows.toFinset k2
    · rw [if_pos hkept] at hq2
      rw [Finset.mem_sort] at hq2
      have hqk : q.key = k := (Finset.mem_filter.mp hq).2
      have hqk2 : q.key = k2 := (Finset.mem_filter.mp hq2).2
      obtain ⟨h1, h2, h3⟩ := hamb
      rw [hqk] at hqk2
      subst hqk2
      unfold keptKey at hkept
      rw [h1] at hkept
      simp [h2, Nat.not_le_of_lt h3] at hkept
    · rw [if_neg hkept] at hq2
      simp at hq2
  · intro k hk hro hna hcard q hq
    simp only [List.mem_flatMap]
    refine ⟨k, (Finset.mem_sort (· ≤ ·)).mpr hk, ?_⟩
    have hkept : keptKey rows.toFinset k = true := by
      unfold keptKey
      rw [hro]
      simp [hna, hcard]
    rw [if_pos hkept, Finset.mem_sort]
    exact hq

/-- C3 counterexample: a group of two distinct rules for a Line object is
discarded with zero `MultipleValue` warnings (it is dropped by the
object-type check first), refuting the unrestricted claim that every
ambiguous group emits exactly one `MultipleValue` warning. -/
theorem claim_C3_counterexample :
    1 < (groupOf ([exLineRule1, exLineRule2].toFinset) ⟨.line, "l1", "x"⟩).card ∧
    Report.countType (read_property_rules_files [some [some exLineRule1, some exLineRule2]]
      Report.empty).2 .multipleValue = 0 ∧
    (read_property_rules_files [some [some exLineRule1, some exLineRule2]] Report.empty).1 =
      some [] := by
  have hkeys : ([exLineRule1, exLineRule2].toFinset.image PropertyRule.key) =
      {⟨.line, "l1", "x"⟩} := by decide
  have hpg : processGroups [exLineRule1, exLineRule2] Report.empty = ([], Report.empty) := by
    rw [processGroups_eq, hkeys, Finset.sort_singleton]
    simp [keptKey, keyWarnings, Report.empty]
  have hrp : read_property_rules_files [some [some exLineRule1, some exLineRule2]]
      Report.empty = (some [], Report.empty) := by
    unfold read_property_rules_files
    rw [show readRows [some [some exLineRule1, some exLineRule2]] Report.empty =
      (some [exLineRule1, exLineRule2], Report.empty) from rfl]
    simp only [hpg]
  rw [hrp]
  refine ⟨by decide, rfl, rfl⟩

/-- C3 witness: the amended theorem applied to a concrete rule list with
one ambiguous route group and one singleton route group. -/
theorem claim_C3_witness :
    (Report.countType (processGroups [exRouteRule1, exRouteRule2, exRouteRule3]
        Report.empty).2 .multipleValue =
      Report.countType Report.empty .multipleValue +
        (([exRouteRule1, exRouteRule2, exRouteRule3].toFinset.image PropertyRule.key).filter
          (fun k => ambiguousKey [exRouteRule1, exRouteRule2, exRouteRule3].toFinset k)).card) ∧
    ((multipleValueMsg ⟨.route, "r1", "route_name"⟩, ReportType.multipleValue) ∈
      (processGroups [exRouteRule1, exRouteRule2, exRouteRule3] Report.empty).2.warnings) ∧
    (exRouteRule1 ∉ (processGroups [exRouteRule1, exRouteRule2, exRouteRule3] Report.empty).1) ∧
    (exRouteRule3 ∈ (processGroups [exRouteRule1, exRouteRule2, exRouteRule3] Report.empty).1) :=
  ⟨(claim_C3 [exRouteRule1, exRouteRule2, exRouteRule3] Report.empty).1,
   (claim_C3 [exRouteRule1, exRouteRule2, exRouteRule3] Report.empty).2.1
      ⟨.route, "r1", "route_name"⟩ (by decide) (by decide),
   (claim_C3 [exRouteRule1, exRouteRule2, exRouteRule3] Report.empty).2.2.1
      ⟨.route, "r1", "route_name"⟩ (by decide) exRouteRule1 (by decide),
   (claim_C3 [exRouteRule1, exRouteRule2, exRouteRule3] Report.empty).2.2.2
      ⟨.route, "r2", "direction_type"⟩ (by decide) rfl (by decide) (by decide)
      exRouteRule3 (by decide)⟩

end TransitModel
